import Mathlib

/-!
Shallow embedding of the AVR low-power duty-cycle controller in
src/src/main.cpp: a watchdog-interrupt-driven sleep/wake loop.

Machine state is modelled explicitly (the registers and peripheral
enables the program touches), and every routine additionally emits a
trace of the hardware operations it performs, in program order, so
that sequencing claims can be stated over the trace.

Register bit positions follow the ATmega328P header values used by
the source (avr/wdt.h, avr/io.h).
-/

/-- Bit position of WDP0 in WDTCSR. -/
def WDP0 : Nat := 0
/-- Bit position of WDE in WDTCSR. -/
def WDE : Nat := 3
/-- Bit position of WDCE in WDTCSR. -/
def WDCE : Nat := 4
/-- Bit position of WDP3 in WDTCSR. -/
def WDP3 : Nat := 5
/-- Bit position of WDIE in WDTCSR. -/
def WDIE : Nat := 6
/-- Bit position of ACD in ACSR. -/
def ACD : Nat := 7

/-- Arduino pin modes. -/
inductive PinMode where
  | input
  | output
  | inputPullup
deriving DecidableEq, Repr

/-- AVR sleep modes selectable through set_sleep_mode. -/
inductive SleepMode where
  | idle
  | adcNoiseReduce
  | pwrDown
  | pwrSave
  | standby
  | extStandby
deriving DecidableEq, Repr

/-- State of one digital pin: its data-direction mode and the driven
(or pull-up) level written through digitalWrite. -/
structure PinConfig where
  mode : PinMode
  level : Bool
deriving DecidableEq, Repr

/-- The gateable internal peripherals addressed by the avr/power.h
calls in enterDeepSleep. -/
inductive Peripheral where
  | adc
  | spi
  | timer0
  | timer1
  | timer2
  | twi
  | usart0
deriving DecidableEq, Repr

/-- Clock/power enable bits for the gateable peripherals
(true = powered/clocked, i.e. the PRR bit is clear). -/
structure PowerSet where
  adc : Bool
  spi : Bool
  timer0 : Bool
  timer1 : Bool
  timer2 : Bool
  twi : Bool
  usart0 : Bool
deriving DecidableEq, Repr

/-- All peripherals powered, the state produced by power_all_enable. -/
def powerAllOn : PowerSet :=
  { adc := true, spi := true, timer0 := true, timer1 := true
    timer2 := true, twi := true, usart0 := true }

/-- Hardware operations the program performs, recorded in program
order.  callInitialize and callEnterLowPower are the external
collaborator operations named by the spec; they appear in the event
alphabet so that claims about them can be stated. -/
inductive Event where
  | cli
  | sei
  | wdtReset
  | writeWDTCSR (v : Nat)
  | writeACSR (v : Nat)
  | setSleepModeEv (m : SleepMode)
  | sleepEnableEv
  | powerDisableEv (p : Peripheral)
  | powerAllEnableEv
  | sleepCpuEv
  | sleepDisableEv
  | pinModeEv (pin : Nat) (m : PinMode)
  | digitalWriteEv (pin : Nat) (lvl : Bool)
  | clearFlagEv
  | checkFlagEv
  | callInitialize
  | callEnterLowPower
deriving DecidableEq, Repr

/-- The machine state the program manipulates: the volatile flag, the
two registers it writes, the sleep-mode selection and sleep-enable
bit, the peripheral power set, the pin states and the global
interrupt-enable bit. -/
structure Mach where
  watchdogFired : Bool
  WDTCSR : Nat
  ACSR : Nat
  smode : SleepMode
  sleepEnabled : Bool
  power : PowerSet
  pins : Nat → PinConfig
  interruptsEnabled : Bool

/-- AVR power-on reset state: registers zero (so all pins are inputs
driven low, all peripherals clocked, watchdog control clear, sleep
mode idle, SE clear), global interrupts disabled, and the C++ global
initializer `volatile bool watchdogFired = false` applied. -/
def bootMach : Mach :=
  { watchdogFired := false
    WDTCSR := 0
    ACSR := 0
    smode := SleepMode.idle
    sleepEnabled := false
    power := powerAllOn
    pins := fun _ => { mode := PinMode.input, level := false }
    interruptsEnabled := false }

/-- ISR(WDT_vect): the watchdog interrupt handler, whose body is the
single assignment `watchdogFired = true;`. -/
def isrWDT (s : Mach) : Mach :=
  { s with watchdogFired := true }

/-- The value written by the unlock statement
`WDTCSR |= (1 << WDCE) | (1 << WDE);` (8-bit register). -/
def wdtUnlockVal (w : Nat) : Nat :=
  (w ||| ((1 <<< WDCE) ||| (1 <<< WDE))) % 256

/-- The value written by the configuration statement
`WDTCSR = (1 << WDIE) | (1 << WDP3) | (1 << WDP0);`. -/
def wdtConfigVal : Nat :=
  (1 <<< WDIE) ||| ((1 <<< WDP3) ||| (1 <<< WDP0))

/-- setupWatchdog (main.cpp lines 20-33): cli; wdt_reset; unlock write
setting WDCE and WDE; configuration write WDIE|WDP3|WDP0; sei. -/
def setupWatchdog (s : Mach) : Mach × List Event :=
  let s1 := { s with interruptsEnabled := false }
  let u := wdtUnlockVal s1.WDTCSR
  let s2 := { s1 with WDTCSR := u }
  let s3 := { s2 with WDTCSR := wdtConfigVal }
  let s4 := { s3 with interruptsEnabled := true }
  (s4, [Event.cli, Event.wdtReset,
        Event.writeWDTCSR u, Event.writeWDTCSR wdtConfigVal,
        Event.sei])

/-- pinMode(pin, m): sets the data-direction of one pin. -/
def doPinMode (pin : Nat) (m : PinMode) (s : Mach) : Mach :=
  { s with pins := fun p =>
      if p = pin then { s.pins p with mode := m } else s.pins p }

/-- digitalWrite(pin, lvl): sets the driven/pull-up level of one pin. -/
def doDigitalWrite (pin : Nat) (lvl : Bool) (s : Mach) : Mach :=
  { s with pins := fun p =>
      if p = pin then { s.pins p with level := lvl } else s.pins p }

/-- The body of the setup for-loop, iterated over `fuel` consecutive
pins starting at `pin`: pinMode(pin, INPUT); digitalWrite(pin, LOW). -/
def pinSweep : Nat → Nat → Mach → Mach × List Event
  | _, 0, s => (s, [])
  | pin, fuel + 1, s =>
    let s1 := doPinMode pin PinMode.input s
    let s2 := doDigitalWrite pin false s1
    let r := pinSweep (pin + 1) fuel s2
    (r.1, Event.pinModeEv pin PinMode.input ::
          Event.digitalWriteEv pin false :: r.2)

/-- enterDeepSleep (main.cpp lines 38-59).  The wdtFires parameter
models whether the watchdog interrupt fires while the CPU is halted in
sleep_cpu; if it does, the handler isrWDT runs before execution
resumes. -/
def enterDeepSleep (wdtFires : Bool) (s : Mach) : Mach × List Event :=
  let s1 := { s with smode := SleepMode.pwrDown }
  let s2 := { s1 with sleepEnabled := true }
  let s3 := { s2 with power := { s2.power with adc := false } }
  let s4 := { s3 with power := { s3.power with spi := false } }
  let s5 := { s4 with power := { s4.power with timer0 := false } }
  let s6 := { s5 with power := { s5.power with timer1 := false } }
  let s7 := { s6 with power := { s6.power with timer2 := false } }
  let s8 := { s7 with power := { s7.power with twi := false } }
  let s9 := { s8 with power := { s8.power with usart0 := false } }
  let s10 := if wdtFires then isrWDT s9 else s9
  let s11 := { s10 with sleepEnabled := false }
  let s12 := { s11 with power := powerAllOn }
  (s12, [Event.setSleepModeEv SleepMode.pwrDown, Event.sleepEnableEv,
         Event.powerDisableEv Peripheral.adc,
         Event.powerDisableEv Peripheral.spi,
         Event.powerDisableEv Peripheral.timer0,
         Event.powerDisableEv Peripheral.timer1,
         Event.powerDisableEv Peripheral.timer2,
         Event.powerDisableEv Peripheral.twi,
         Event.powerDisableEv Peripheral.usart0,
         Event.sleepCpuEv, Event.sleepDisableEv,
         Event.powerAllEnableEv])

/-- setup (main.cpp lines 61-74): disable the analog comparator, float
all 20 pins, configure the watchdog. -/
def setup (s : Mach) : Mach × List Event :=
  let a := (s.ACSR ||| (1 <<< ACD)) % 256
  let s1 := { s with ACSR := a }
  let r2 := pinSweep 0 20 s1
  let r3 := setupWatchdog r2.1
  (r3.1, Event.writeACSR a :: (r2.2 ++ r3.2))

/-- The application hook point guarded by `if (watchdogFired)`.  Its
body is empty in the source, so it is the identity. -/
def applicationHook (s : Mach) : Mach := s

/-- loop (main.cpp lines 76-86): clear the flag, sleep, then check the
flag; the guarded hook body is empty. -/
def loopBody (wdtFires : Bool) (s : Mach) : Mach × List Event :=
  let s1 := { s with watchdogFired := false }
  let r2 := enterDeepSleep wdtFires s1
  let s3 := if r2.1.watchdogFired then applicationHook r2.1 else r2.1
  (s3, Event.clearFlagEv :: (r2.2 ++ [Event.checkFlagEv]))

/-- The steady-state loop run for a sequence of cycles, one Bool per
cycle saying whether the watchdog fired during that sleep. -/
def runLoop : List Bool → Mach → Mach × List Event
  | [], s => (s, [])
  | f :: fs, s =>
    let r1 := loopBody f s
    let r2 := runLoop fs r1.1
    (r2.1, r1.2 ++ r2.2)

/-- The events a trace performs strictly before the halt instruction. -/
def preHalt (t : List Event) : List Event :=
  t.takeWhile (fun e => decide (e ≠ Event.sleepCpuEv))

/-- Recognizer for the two per-pin operations of the setup loop. -/
def isPinEvent : Event → Bool
  | Event.pinModeEv _ _ => true
  | Event.digitalWriteEv _ _ => true
  | _ => false

/-! ### Helper lemmas -/

theorem testBit_or_mod256 (w m i : Nat) (h : i < 8) :
    Nat.testBit ((w ||| m) % 256) i = (Nat.testBit w i || Nat.testBit m i) := by
  have h256 : (256 : Nat) = 2 ^ 8 := by norm_num
  rw [h256, Nat.testBit_mod_two_pow, Nat.testBit_or]
  simp [h]

theorem pinSweep_preserves (fuel : Nat) : ∀ (pin : Nat) (s : Mach),
    (pinSweep pin fuel s).1.watchdogFired = s.watchdogFired ∧
    (pinSweep pin fuel s).1.WDTCSR = s.WDTCSR ∧
    (pinSweep pin fuel s).1.ACSR = s.ACSR ∧
    (pinSweep pin fuel s).1.smode = s.smode ∧
    (pinSweep pin fuel s).1.sleepEnabled = s.sleepEnabled ∧
    (pinSweep pin fuel s).1.power = s.power ∧
    (pinSweep pin fuel s).1.interruptsEnabled = s.interruptsEnabled := by
  induction fuel with
  | zero => intro pin s; exact ⟨rfl, rfl, rfl, rfl, rfl, rfl, rfl⟩
  | succ n ih =>
    intro pin s
    simpa [pinSweep, doPinMode, doDigitalWrite] using
      ih (pin + 1) (doDigitalWrite pin false (doPinMode pin PinMode.input s))

theorem pinSweep_pins_lo (fuel : Nat) : ∀ (pin : Nat) (s : Mach) (j : Nat),
    j < pin → (pinSweep pin fuel s).1.pins j = s.pins j := by
  induction fuel with
  | zero => intro pin s j _; rfl
  | succ n ih =>
    intro pin s j hj
    have hne : j ≠ pin := Nat.ne_of_lt hj
    have := ih (pin + 1) (doDigitalWrite pin false (doPinMode pin PinMode.input s)) j
      (Nat.lt_succ_of_lt hj)
    simpa [pinSweep, doPinMode, doDigitalWrite, hne] using this

theorem pinSweep_pins_set (fuel : Nat) : ∀ (pin : Nat) (s : Mach) (j : Nat),
    pin ≤ j → j < pin + fuel →
    (pinSweep pin fuel s).1.pins j = { mode := PinMode.input, level := false } := by
  induction fuel with
  | zero => intro pin s j h1 h2; omega
  | succ n ih =>
    intro pin s j h1 h2
    rcases Nat.eq_or_lt_of_le h1 with heq | hlt
    · subst heq
      have hfr := pinSweep_pins_lo n (pin + 1)
        (doDigitalWrite pin false (doPinMode pin PinMode.input s)) pin (Nat.lt_succ_self pin)
      simpa [pinSweep, doPinMode, doDigitalWrite] using hfr
    · have := ih (pin + 1) (doDigitalWrite pin false (doPinMode pin PinMode.input s)) j
        hlt (by omega)
      simpa [pinSweep] using this

/-! ### Claim theorems -/

/-- Claim C1: setupWatchdog performs exactly the sequence cli, watchdog
reset, one unlock write whose value has both WDCE and WDE set, then as
the very next write the target configuration WDIE with WDP3 and WDP0,
then sei; afterwards WDTCSR holds the target configuration and
interrupts are re-enabled. -/
theorem setupWatchdog_sequence (s : Mach) :
    (setupWatchdog s).2 =
      [Event.cli, Event.wdtReset,
       Event.writeWDTCSR (wdtUnlockVal s.WDTCSR),
       Event.writeWDTCSR wdtConfigVal, Event.sei] ∧
    Nat.testBit (wdtUnlockVal s.WDTCSR) WDCE = true ∧
    Nat.testBit (wdtUnlockVal s.WDTCSR) WDE = true ∧
    wdtConfigVal = (1 <<< WDIE) ||| ((1 <<< WDP3) ||| (1 <<< WDP0)) ∧
    (setupWatchdog s).1.WDTCSR = wdtConfigVal ∧
    (setupWatchdog s).1.interruptsEnabled = true := by
  refine ⟨rfl, ?_, ?_, rfl, rfl, rfl⟩
  · have h := testBit_or_mod256 s.WDTCSR ((1 <<< WDCE) ||| (1 <<< WDE)) WDCE (by norm_num [WDCE])
    rw [wdtUnlockVal, h]
    simp [WDCE, WDE]
    right
    decide
  · have h := testBit_or_mod256 s.WDTCSR ((1 <<< WDCE) ||| (1 <<< WDE)) WDE (by norm_num [WDE])
    rw [wdtUnlockVal, h]
    simp [WDCE, WDE]
    right
    decide

/-- Claim C2: the wake flag is false immediately after a loop iteration
begins (the iteration clears it first), and at the post-sleep check it
is true exactly when the watchdog interrupt fired during the preceding
sleep; sleeping without a watchdog fire leaves it false. -/
theorem loop_wakeFlag (f : Bool) (s : Mach) :
    (Mach.watchdogFired { s with watchdogFired := false } = false) ∧
    (loopBody f s).2.head? = some Event.clearFlagEv ∧
    (enterDeepSleep f { s with watchdogFired := false }).1.watchdogFired = f ∧
    (loopBody f s).1.watchdogFired = f := by
  refine ⟨rfl, rfl, ?_, ?_⟩ <;>
    cases f <;> simp [loopBody, enterDeepSleep, isrWDT, applicationHook]

/-- Claim C9: the sequence of operations a loop iteration performs is
independent of whether the watchdog fired during the sleep, because
the guarded application hook body is empty (the identity). -/
theorem loop_trace_flag_independent (f g : Bool) (s : Mach) :
    (loopBody f s).2 = (loopBody g s).2 ∧ applicationHook = id := by
  constructor
  · cases f <;> cases g <;> rfl
  · rfl

/-- Claim C10: enterDeepSleep returns with every gateable peripheral
enabled regardless of the pre-call power state, since restoration is
the fixed power_all_enable operation. -/
theorem restore_enables_all (f : Bool) (s : Mach) :
    (enterDeepSleep f s).1.power = powerAllOn := by
  cases f <;> rfl

/-- Claim C3: in every sleep cycle the events before the halt
instruction are exactly: select power-down, arm sleep-enable, then one
disable per gateable peripheral; each peripheral is disabled exactly
once there, and the halt instruction is reached. -/
theorem enterDeepSleep_gating (f : Bool) (s : Mach) :
    preHalt (enterDeepSleep f s).2 =
      [Event.setSleepModeEv SleepMode.pwrDown, Event.sleepEnableEv,
       Event.powerDisableEv Peripheral.adc, Event.powerDisableEv Peripheral.spi,
       Event.powerDisableEv Peripheral.timer0, Event.powerDisableEv Peripheral.timer1,
       Event.powerDisableEv Peripheral.timer2, Event.powerDisableEv Peripheral.twi,
       Event.powerDisableEv Peripheral.usart0] ∧
    (∀ p : Peripheral,
      (preHalt (enterDeepSleep f s).2).count (Event.powerDisableEv p) = 1) ∧
    Event.sleepCpuEv ∈ (enterDeepSleep f s).2 := by
  cases f <;> exact ⟨rfl, fun p => by cases p <;> rfl, by simp [enterDeepSleep]⟩

/-- Claim C4: the trace after the halt instruction is exactly
sleep-disable then the single atomic power-all-enable, so the
sleep-enable bit is cleared before any peripheral is re-enabled; the
returned state has sleep-enable clear and all peripherals powered; and
in the loop the whole sleep trace (restoration included) precedes the
post-wake flag check. -/
theorem resume_ordering (f : Bool) (s : Mach) :
    (enterDeepSleep f s).2 =
      preHalt (enterDeepSleep f s).2 ++
        [Event.sleepCpuEv, Event.sleepDisableEv, Event.powerAllEnableEv] ∧
    (enterDeepSleep f s).1.sleepEnabled = false ∧
    (enterDeepSleep f s).1.power = powerAllOn ∧
    (loopBody f s).2 =
      Event.clearFlagEv ::
        ((enterDeepSleep f { s with watchdogFired := false }).2 ++
          [Event.checkFlagEv]) := by
  cases f <;> exact ⟨rfl, rfl, rfl, rfl⟩

/-- Claim C6: the wake flag is initialized false at boot; the watchdog
interrupt handler sets it true and changes nothing else; setup and
setupWatchdog never change it; sleeping changes it only when the
watchdog fires; and every loop iteration begins by clearing it. -/
theorem wakeFlag_single_writer :
    bootMach.watchdogFired = false ∧
    (∀ s : Mach, (isrWDT s).watchdogFired = true ∧
      (isrWDT s).WDTCSR = s.WDTCSR ∧ (isrWDT s).ACSR = s.ACSR ∧
      (isrWDT s).smode = s.smode ∧ (isrWDT s).sleepEnabled = s.sleepEnabled ∧
      (isrWDT s).power = s.power ∧ (isrWDT s).pins = s.pins ∧
      (isrWDT s).interruptsEnabled = s.interruptsEnabled) ∧
    (∀ s : Mach, (setupWatchdog s).1.watchdogFired = s.watchdogFired) ∧
    (∀ s : Mach, (setup s).1.watchdogFired = s.watchdogFired) ∧
    (∀ s : Mach, (enterDeepSleep false s).1.watchdogFired = s.watchdogFired) ∧
    (∀ s : Mach, (enterDeepSleep true s).1.watchdogFired = true) ∧
    (∀ (f : Bool) (s : Mach), (loopBody f s).2.head? = some Event.clearFlagEv) := by
  refine ⟨rfl, fun s => ⟨rfl, rfl, rfl, rfl, rfl, rfl, rfl, rfl⟩, fun s => rfl,
    fun s => ?_, fun s => rfl, fun s => rfl, fun f s => rfl⟩
  have h := (pinSweep_preserves 20 0 { s with ACSR := (s.ACSR ||| (1 <<< ACD)) % 256 }).1
  simpa [setup, setupWatchdog] using h

theorem loopBody_WDTCSR (f : Bool) (s : Mach) :
    (loopBody f s).1.WDTCSR = s.WDTCSR := by
  cases f <;> rfl

theorem loopBody_no_wdt_write (f : Bool) (s : Mach) (v : Nat) :
    Event.writeWDTCSR v ∉ (loopBody f s).2 := by
  cases f <;> simp [loopBody, enterDeepSleep]

theorem runLoop_WDTCSR (fs : List Bool) : ∀ s : Mach,
    (runLoop fs s).1.WDTCSR = s.WDTCSR ∧
    (∀ v : Nat, Event.writeWDTCSR v ∉ (runLoop fs s).2) := by
  induction fs with
  | nil => intro s; exact ⟨rfl, fun v => by simp [runLoop]⟩
  | cons f fs ih =>
    intro s
    constructor
    · show (runLoop fs (loopBody f s).1).1.WDTCSR = s.WDTCSR
      rw [(ih (loopBody f s).1).1, loopBody_WDTCSR]
    · intro v
      show Event.writeWDTCSR v ∉ (loopBody f s).2 ++ (runLoop fs (loopBody f s).1).2
      rw [List.mem_append]
      rintro (h | h)
      · exact loopBody_no_wdt_write f s v h
      · exact (ih (loopBody f s).1).2 v h

/-- Claim C7: setup leaves WDTCSR holding the boot configuration, and
no number of steady-state loop iterations changes it or even emits a
WDTCSR write; the interrupt handler never writes it either. -/
theorem watchdog_config_immutable (s : Mach) (fs : List Bool) :
    (setup s).1.WDTCSR = wdtConfigVal ∧
    (runLoop fs (setup s).1).1.WDTCSR = wdtConfigVal ∧
    (∀ v : Nat, Event.writeWDTCSR v ∉ (runLoop fs (setup s).1).2) ∧
    (∀ w : Mach, (isrWDT w).WDTCSR = w.WDTCSR) := by
  have hset : (setup s).1.WDTCSR = wdtConfigVal := by
    show (setupWatchdog (pinSweep 0 20 _).1).1.WDTCSR = wdtConfigVal
    rfl
  refine ⟨hset, ?_, (runLoop_WDTCSR fs (setup s).1).2, fun w => rfl⟩
  rw [(runLoop_WDTCSR fs (setup s).1).1, hset]

theorem pinSweep_trace_length (fuel : Nat) : ∀ (pin : Nat) (s : Mach),
    (pinSweep pin fuel s).2.length = 2 * fuel := by
  induction fuel with
  | zero => intro pin s; rfl
  | succ n ih =>
    intro pin s
    show ((pinSweep (pin + 1) n _).2.length + 1) + 1 = 2 * (n + 1)
    rw [ih (pin + 1)]
    omega

theorem pinSweep_trace_pinEvents (fuel : Nat) : ∀ (pin : Nat) (s : Mach),
    ∀ e ∈ (pinSweep pin fuel s).2, isPinEvent e = true := by
  induction fuel with
  | zero => intro pin s e he; simp [pinSweep] at he
  | succ n ih =>
    intro pin s e he
    simp only [pinSweep, List.mem_cons] at he
    rcases he with h | h | h
    · subst h; rfl
    · subst h; rfl
    · exact ih (pin + 1) _ e h

/-- Claim C5: after setup, every one of the 20 pins is in input mode
with its driven level low and the ACD bit of ACSR is set; the setup
trace starts with the comparator write, follows with exactly 40 pin
operations, and ends with the watchdog configuration sequence. -/
theorem setup_boot_state (s : Mach) (i : Nat) (h : i < 20) :
    ((setup s).1).pins i = { mode := PinMode.input, level := false } ∧
    Nat.testBit ((setup s).1).ACSR ACD = true ∧
    (setup s).2.head? = some (Event.writeACSR ((s.ACSR ||| (1 <<< ACD)) % 256)) ∧
    (∀ e ∈ ((setup s).2.drop 1).take 40, isPinEvent e = true) ∧
    (setup s).2.drop 41 =
      [Event.cli, Event.wdtReset, Event.writeWDTCSR (wdtUnlockVal s.WDTCSR),
       Event.writeWDTCSR wdtConfigVal, Event.sei] := by
  refine ⟨?_, ?_, rfl, ?_, ?_⟩
  · have hp := pinSweep_pins_set 20 0
      { s with ACSR := (s.ACSR ||| (1 <<< ACD)) % 256 } i (Nat.zero_le i) (by omega)
    simpa [setup, setupWatchdog] using hp
  · have hA : ((setup s).1).ACSR = (s.ACSR ||| (1 <<< ACD)) % 256 := by
      have h2 := (pinSweep_preserves 20 0
        { s with ACSR := (s.ACSR ||| (1 <<< ACD)) % 256 }).2.2.1
      simpa [setup, setupWatchdog] using h2
    rw [hA, testBit_or_mod256 s.ACSR (1 <<< ACD) ACD (by norm_num [ACD])]
    simp [ACD]
    right
    decide
  · intro e he
    have hd1 : (setup s).2.drop 1 =
        (pinSweep 0 20 { s with ACSR := (s.ACSR ||| (1 <<< ACD)) % 256 }).2 ++
          (setupWatchdog (pinSweep 0 20
            { s with ACSR := (s.ACSR ||| (1 <<< ACD)) % 256 }).1).2 := rfl
    have hlen := pinSweep_trace_length 20 0
      { s with ACSR := (s.ACSR ||| (1 <<< ACD)) % 256 }
    rw [hd1] at he
    have htk : ((pinSweep 0 20 { s with ACSR := (s.ACSR ||| (1 <<< ACD)) % 256 }).2 ++
        (setupWatchdog (pinSweep 0 20
          { s with ACSR := (s.ACSR ||| (1 <<< ACD)) % 256 }).1).2).take 40 =
        (pinSweep 0 20 { s with ACSR := (s.ACSR ||| (1 <<< ACD)) % 256 }).2 := by
      rw [show (40 : Nat) = (pinSweep 0 20
        { s with ACSR := (s.ACSR ||| (1 <<< ACD)) % 256 }).2.length from by rw [hlen]]
      exact List.take_left _ _
    rw [htk] at he
    exact pinSweep_trace_pinEvents 20 0 _ e he
  · have hd1 : (setup s).2.drop 41 = ((pinSweep 0 20
        { s with ACSR := (s.ACSR ||| (1 <<< ACD)) % 256 }).2 ++
          (setupWatchdog (pinSweep 0 20
            { s with ACSR := (s.ACSR ||| (1 <<< ACD)) % 256 }).1).2).drop 40 := rfl
    have hlen := pinSweep_trace_length 20 0
      { s with ACSR := (s.ACSR ||| (1 <<< ACD)) % 256 }
    rw [hd1, show (40 : Nat) = (pinSweep 0 20
      { s with ACSR := (s.ACSR ||| (1 <<< ACD)) % 256 }).2.length from by rw [hlen],
      List.drop_left]
    have hW := (pinSweep_preserves 20 0
      { s with ACSR := (s.ACSR ||| (1 <<< ACD)) % 256 }).2.1
    simp only [setupWatchdog]
    rw [hW]

/-- Claim C5 witness at pin 3 from the power-on state. -/
theorem setup_boot_state_witness :
    3 < 20 ∧
    (((setup bootMach).1).pins 3 = { mode := PinMode.input, level := false } ∧
     Nat.testBit ((setup bootMach).1).ACSR ACD = true ∧
     (setup bootMach).2.head? =
       some (Event.writeACSR ((bootMach.ACSR ||| (1 <<< ACD)) % 256)) ∧
     (∀ e ∈ ((setup bootMach).2.drop 1).take 40, isPinEvent e = true) ∧
     (setup bootMach).2.drop 41 =
       [Event.cli, Event.wdtReset, Event.writeWDTCSR (wdtUnlockVal bootMach.WDTCSR),
        Event.writeWDTCSR wdtConfigVal, Event.sei]) :=
  ⟨by decide, setup_boot_state bootMach 3 (by decide)⟩

/-- Claim C8 counterexample: at the concrete power-on state, the boot
sequence performs no initialize() call and the sleep cycle performs no
enterLowPower() call, contradicting the claim that the core invokes
the external collaborator at those points. -/
theorem collaborator_calls_counterexample :
    Event.callInitialize ∉ (setup bootMach).2 ∧
    Event.callEnterLowPower ∉ (enterDeepSleep true bootMach).2 := by
  decide

/-- Claim C8 (amended): the core never invokes the external
collaborator: no initialize() call occurs anywhere in the boot
sequence and no enterLowPower() call occurs anywhere in a sleep cycle
or a loop iteration. -/
theorem no_collaborator_calls (s : Mach) (f : Bool) :
    Event.callInitialize ∉ (setup s).2 ∧
    Event.callEnterLowPower ∉ (setup s).2 ∧
    Event.callInitialize ∉ (loopBody f s).2 ∧
    Event.callEnterLowPower ∉ (loopBody f s).2 := by
  have hsetup : ∀ e, e ∈ (setup s).2 →
      e = Event.writeACSR ((s.ACSR ||| (1 <<< ACD)) % 256) ∨
      isPinEvent e = true ∨ e ∈ (setupWatchdog (pinSweep 0 20
        { s with ACSR := (s.ACSR ||| (1 <<< ACD)) % 256 }).1).2 := by
    intro e he
    show e = _ ∨ _ ∨ _
    simp only [setup, List.mem_cons, List.mem_append] at he
    rcases he with h | h | h
    · exact Or.inl h
    · exact Or.inr (Or.inl (pinSweep_trace_pinEvents 20 0 _ e h))
    · exact Or.inr (Or.inr h)
  refine ⟨fun h => ?_, fun h => ?_, ?_, ?_⟩
  · rcases hsetup _ h with h1 | h1 | h1
    · exact Event.noConfusion h1
    · exact Bool.noConfusion h1
    · simp [setupWatchdog] at h1
  · rcases hsetup _ h with h1 | h1 | h1
    · exact Event.noConfusion h1
    · exact Bool.noConfusion h1
    · simp [setupWatchdog] at h1
  · cases f <;> simp [loopBody, enterDeepSleep]
  · cases f <;> simp [loopBody, enterDeepSleep]
